import Mathlib

/-!
Shallow embedding of the distributed cluster compatibility checker
(cluster_compat_check.py): the collective test runner, the host
orchestrator's registration and aggregation phases, the worker agent's
command loop, the iperf listener manager, throughput extraction, the
mesh report rows, and the JSON control channel's recv.

External effects (torch import, CUDA probing, NCCL communication,
subprocess spawning, socket reads) are passed in as explicit outcome
values; the control flow and the data produced on each path are
translated from the source.
-/

/-- Outcome of the NCCL communication phase (init, all-reduce, item,
barrier): either some step raised, or the whole phase produced the
reduced scalar. -/
inductive CommOutcome where
  | fail (e : String)
  | done (reduced : ℚ)
deriving DecidableEq

/-- Environment of one `_run_nccl_distributed` call: the hostname, the
outcomes of the torch import, the CUDA availability and device-count
probes, the communication phase, and the measured wall-clock time. -/
structure NcclEnv where
  hostname : String
  torchImportOk : Bool
  torchImportErr : String
  cudaAvailable : Bool
  gpuCount : Nat
  commOutcome : CommOutcome
  elapsed : ℚ
deriving DecidableEq

/-- The result record built by `_run_nccl_distributed`. -/
structure NcclResult where
  ok : Bool
  rank : Nat
  world_size : Nat
  hostname : String
  sum : Option ℚ
  expected_sum : ℚ
  elapsed_seconds : ℚ
  error : String
deriving DecidableEq

/-- Closed-form expected all-reduce sum,
`float(world_size * (world_size - 1) / 2)` with Python int arithmetic
(for world_size = 0 both sides give 0). -/
def expectedSum (ws : Nat) : ℚ := ((ws * (ws - 1) : ℕ) : ℚ) / 2

/-- Embedding of `_run_nccl_distributed`: every failure is caught and
recorded in the result; the tolerance check is `< 1e-4`.  Error strings
keep the source's fixed prefixes (interpolated values elided); the
unconditional cleanup in the source's finally block does not touch the
result record and is therefore not part of the returned value. -/
def runNcclDistributed (env : NcclEnv) (rank ws : Nat) : NcclResult :=
  let base : NcclResult :=
    { ok := false, rank := rank, world_size := ws, hostname := env.hostname,
      sum := none, expected_sum := expectedSum ws,
      elapsed_seconds := env.elapsed, error := "" }
  if !env.torchImportOk then
    { base with error := "import torch failed: " ++ env.torchImportErr }
  else if !env.cudaAvailable then
    { base with error := "torch.cuda.is_available() is False" }
  else if env.gpuCount < 1 then
    { base with error := "no CUDA GPU detected" }
  else
    match env.commOutcome with
    | CommOutcome.fail e => { base with error := e }
    | CommOutcome.done reduced =>
        if |reduced - expectedSum ws| < 1 / 10000 then
          { base with sum := some reduced, ok := true }
        else
          { base with
            sum := some reduced
            ok := false
            error := "all_reduce sum mismatch" }

/-- Concrete environment for the claim C1 witness: world size 3,
healthy torch/CUDA, a correct all-reduce. -/
def claim1Env : NcclEnv :=
  { hostname := "node0", torchImportOk := true, torchImportErr := "",
    cudaAvailable := true, gpuCount := 1,
    commOutcome := CommOutcome.done 3, elapsed := 1 }

/-- A worker connection as stored by the host at registration time:
the assigned rank and the hostname it registered with (the other
stored connection fields play no role in result aggregation). -/
structure WorkerConn where
  rank : Nat
  hostname : String
deriving DecidableEq

/-- What the host observes when it waits for one worker's collective
reply on that worker's own channel: a transport failure (timeout or
peer close), or a parsed message carrying a type tag and a result
payload (whose fields, including the rank, are whatever the worker
claimed). -/
inductive WireReply where
  | recvFail (e : String)
  | msg (t : String) (payload : NcclResult)
deriving DecidableEq

/-- The synthetic failed result the host substitutes for a worker
whose reply was lost or had the wrong type: built from the worker's
stored identity, never from the reply. -/
def syntheticResult (cs : Nat) (w : WorkerConn) (err : String) : NcclResult :=
  { ok := false, rank := w.rank, world_size := cs, hostname := w.hostname,
    sum := none, expected_sum := expectedSum cs, elapsed_seconds := 0,
    error := err }

/-- One step of the host's collective-phase collection loop for a
single worker, from `run_host_mode`: a recv failure or a reply whose
type is not nccl_result is replaced by the synthetic failed result;
a well-typed reply is taken verbatim. -/
def collectWorkerResult (cs : Nat) (w : WorkerConn) (r : WireReply) : NcclResult :=
  match r with
  | WireReply.recvFail e => syntheticResult cs w ("recv failed: " ++ e)
  | WireReply.msg t payload =>
      if t = "nccl_result" then payload
      else syntheticResult cs w "unexpected response"

/-- The host's collection loop over all registered workers, in
registration order, one blocking recv per worker connection. -/
def collectWorkerResults (cs : Nat) (l : List (WorkerConn × WireReply)) : List NcclResult :=
  l.map (fun p => collectWorkerResult cs p.1 p.2)

/-- Witness data for claim C2: a three-node cluster where one worker
replies correctly, one times out. -/
def claim2Workers : List (WorkerConn × WireReply) :=
  [({ rank := 1, hostname := "w1" },
      WireReply.msg "nccl_result" (runNcclDistributed claim1Env 1 3)),
   ({ rank := 2, hostname := "w2" }, WireReply.recvFail "timeout")]

/-- One accepted connection during the host's registration phase, as
the host experiences it: the first recv may raise, or it yields a
first message with a type tag and a hostname; for a register first
message, payloadOk says whether converting the payload fields (the
int conversion of the gpu_count field, which runs before the worker
is appended) succeeds, and replySendOk whether the subsequent
registered reply send succeeds. -/
inductive RegEvent where
  | recvFail
  | firstMsg (t : String) (hostname : String) (payloadOk : Bool) (replySendOk : Bool)
deriving DecidableEq

/-- The effect of one accepted connection on the host's worker list,
from the registration loop in `run_host_mode`: a recv failure, a
non-register first message, or a register whose payload conversion
raises (all handled or raised before the append) leave the list
unchanged; a register first message whose payload converts appends a
worker with rank = list length + 1 BEFORE the registered reply is
sent, so that append happens whether or not the reply send succeeds. -/
def registerStep (workers : List WorkerConn) (e : RegEvent) : List WorkerConn :=
  match e with
  | RegEvent.recvFail => workers
  | RegEvent.firstMsg t h pOk _ =>
      if t = "register" then
        if pOk then workers ++ [{ rank := workers.length + 1, hostname := h }]
        else workers
      else workers

/-- The host's registration loop: accept connections while fewer than
cluster_size - 1 workers are registered; modelled over a finite list
of connection events (the real loop blocks for the next connection,
so a drained event list returns the workers registered so far). -/
def registerLoop (cs : Nat) : List RegEvent → List WorkerConn → List WorkerConn
  | [], workers => workers
  | e :: rest, workers =>
      if workers.length < cs - 1 then registerLoop cs rest (registerStep workers e)
      else workers

/-- Canonical rank assignment: the i-th registered worker holds rank
i + 1. -/
def ranksCanonical (workers : List WorkerConn) : Prop :=
  ∀ i (h : i < workers.length), (workers.get ⟨i, h⟩).rank = i + 1

/-- One side entry of an iperf3 JSON report (its bits_per_second field
when present and numeric). -/
structure IperfSide where
  bits_per_second : Option ℚ
deriving DecidableEq

/-- One per-stream entry of an iperf3 JSON report; a non-dict entry is
modelled as both sides absent. -/
structure IperfStream where
  sender : Option IperfSide
  receiver : Option IperfSide
deriving DecidableEq

/-- The end section of an iperf3 JSON report (a report with no end
section behaves as one with all parts absent). -/
structure IperfEnd where
  sum_sent : Option IperfSide
  sum_received : Option IperfSide
  streams : Option (List IperfStream)
deriving DecidableEq

/-- An iperf3 process output: either not parseable as JSON, or a
parsed report. -/
inductive IperfOutput where
  | invalid
  | parsed (e : IperfEnd)
deriving DecidableEq

/-- The candidate throughput figures contributed by one optional side
entry: its bits_per_second when present and numeric. -/
def sideCandidates (s : Option IperfSide) : List ℚ :=
  match s with
  | some side =>
      match side.bits_per_second with
      | some b => [b]
      | none => []
  | none => []

/-- Python max over a candidate list, none when empty. -/
def maxCandidates : List ℚ → Option ℚ
  | [] => none
  | x :: xs => some (xs.foldl max x)

/-- The per-stream candidate figures of a report's end section, in the
source's traversal order (sender side then receiver side per stream). -/
def streamCandidates (e : IperfEnd) : List ℚ :=
  (e.streams.getD []).foldr
    (fun st acc => sideCandidates st.sender ++ sideCandidates st.receiver ++ acc) []

/-- Embedding of `_extract_iperf_bps`: take the max of the sum_received
and sum_sent aggregate figures when at least one is present; otherwise
fall back to the max over the per-stream figures; none when nothing
numeric is found or the text is not JSON. -/
def extractIperfBps : IperfOutput → Option ℚ
  | IperfOutput.invalid => none
  | IperfOutput.parsed e =>
      match maxCandidates (sideCandidates e.sum_received ++ sideCandidates e.sum_sent) with
      | some m => some m
      | none => maxCandidates (streamCandidates e)

/-- A probe reply: the {ok, bps, error} record used for iperf client
runs and directed probes. -/
structure ProbeReply where
  ok : Bool
  bps : Option ℚ
  error : String
deriving DecidableEq

/-- Embedding of `_run_iperf_client`: the client subprocess exit code
and output decide the result; a nonzero exit is a failure with the
captured error text, a zero exit whose output yields no throughput is
a parse failure, otherwise ok with the extracted figure. -/
def runIperfClient (exitCode : Int) (out : IperfOutput) (errText : String) : ProbeReply :=
  if exitCode ≠ 0 then { ok := false, bps := none, error := errText }
  else
    match extractIperfBps out with
    | none => { ok := false, bps := none, error := "cannot parse iperf3 json throughput" }
    | some b => { ok := true, bps := some b, error := "" }

/-- Environment of one directed probe: the sink's listener start
outcome, the source's client run (exit code, output, error text), and
the sink's listener wait outcome including its own report output —
which the source code collects but never parses. -/
structure DirectionEnv where
  serverStartOk : Bool
  serverStartErr : String
  clientExitCode : Int
  clientOut : IperfOutput
  clientErrText : String
  serverWaitOk : Bool
  serverWaitErr : String
  serverWaitOut : IperfOutput
deriving DecidableEq

/-- Embedding of `_run_iperf_direction`: server start, client run and
server wait must all succeed and the throughput figure comes from the
client's parsed output. -/
def runIperfDirection (env : DirectionEnv) : ProbeReply :=
  if !env.serverStartOk then
    { ok := false, bps := none, error := "server start failed: " ++ env.serverStartErr }
  else
    let clientRes := runIperfClient env.clientExitCode env.clientOut env.clientErrText
    if !clientRes.ok then
      { ok := false, bps := none, error := "client failed: " ++ clientRes.error }
    else if !env.serverWaitOk then
      { ok := false, bps := none, error := "server failed: " ++ env.serverWaitErr }
    else
      match clientRes.bps with
      | none => { ok := false, bps := none, error := "no throughput parsed" }
      | some b => { ok := true, bps := some b, error := "" }

/-- A direction's gigabit figure as the mesh report computes it:
present only when the probe is ok AND its bps value is truthy in the
Python sense, i.e. present and nonzero. -/
def directionGbps (d : ProbeReply) : Option ℚ :=
  match d.bps with
  | some b => if d.ok = true ∧ b ≠ 0 then some (b / 1000000000) else none
  | none => none

/-- One row of the mesh report table for a node pair, from
`_run_mesh_iperf_tests`: per-direction gigabit figures, their average
over the present figures, the PASS/FAIL status and the detail text. -/
structure MeshRow where
  aGbps : Option ℚ
  bGbps : Option ℚ
  avgGbps : Option ℚ
  status : String
  detail : String
deriving DecidableEq

/-- Embedding of the per-pair row construction in
`_run_mesh_iperf_tests`. -/
def meshRow (a b : ProbeReply) : MeshRow :=
  let ag := directionGbps a
  let bg := directionGbps b
  let vals := ag.toList ++ bg.toList
  { aGbps := ag
    bGbps := bg
    avgGbps := if vals = [] then none else some (vals.sum / (vals.length : ℚ))
    status := if a.ok = true ∧ b.ok = true then "PASS" else "FAIL"
    detail := ((if !a.ok then "A->B: " ++ a.error ++ " " else "") ++
               (if !b.ok then "B->A: " ++ b.error else "")).trim }

/-- Directed-probe environment for the claim C4 counterexample: the
client run succeeds and its own output parses to a throughput figure,
while the sink's collected report is not parseable at all. -/
def claim4Env : DirectionEnv :=
  { serverStartOk := true, serverStartErr := "",
    clientExitCode := 0,
    clientOut := IperfOutput.parsed
      { sum_sent := some { bits_per_second := some 1000000000 },
        sum_received := none, streams := none },
    clientErrText := "",
    serverWaitOk := true, serverWaitErr := "",
    serverWaitOut := IperfOutput.invalid }

/-- Directed-probe environment whose client output reports an
aggregate throughput of exactly 0 bits per second: the probe succeeds
(ok = true, bps = 0). -/
def claim8EnvZero : DirectionEnv :=
  { serverStartOk := true, serverStartErr := "",
    clientExitCode := 0,
    clientOut := IperfOutput.parsed
      { sum_sent := some { bits_per_second := some 0 },
        sum_received := none, streams := none },
    clientErrText := "",
    serverWaitOk := true, serverWaitErr := "",
    serverWaitOut := IperfOutput.invalid }

/-- Directed-probe environment whose client output reports 2e9 bits
per second. -/
def claim8EnvTwo : DirectionEnv :=
  { serverStartOk := true, serverStartErr := "",
    clientExitCode := 0,
    clientOut := IperfOutput.parsed
      { sum_sent := some { bits_per_second := some 2000000000 },
        sum_received := none, streams := none },
    clientErrText := "",
    serverWaitOk := true, serverWaitErr := "",
    serverWaitOut := IperfOutput.invalid }

/-- What the worker agent observes for one iteration of its command
loop: recv raised (transport failure), or a parsed message with its
type tag and a flag saying whether the type-specific payload fields
parse (present with convertible values). -/
inductive WireEvent where
  | transportFail (e : String)
  | message (t : String) (payloadOk : Bool)
deriving DecidableEq

/-- How a run of the worker command loop ends: a normal return (after
shutdown), a propagated exception, or blocked waiting for a further
command (the modelled event list ran out). -/
inductive LoopExit where
  | normal (code : Int)
  | raised (e : String)
  | blocked
deriving DecidableEq

/-- A reply sent by the worker agent: a typed result reply or the
explicit error reply. -/
inductive WorkerReply where
  | typed (t : String)
  | errorReply (msg : String)
deriving DecidableEq

/-- The command types the worker agent dispatches on. -/
def recognizedCommand (t : String) : Bool :=
  t = "start_nccl" || t = "check_iperf3" || t = "iperf_server_start" ||
  t = "iperf_server_wait" || t = "iperf_client_run" || t = "shutdown"

/-- The commands whose handlers read required payload fields before
replying (a missing or malformed field raises there); check_iperf3 and
shutdown read no payload. -/
def payloadRequired (t : String) : Bool :=
  t = "start_nccl" || t = "iperf_server_start" || t = "iperf_server_wait" ||
  t = "iperf_client_run"

/-- The reply type the worker sends for each recognized non-shutdown
command. -/
def replyTypeFor (t : String) : String :=
  if t = "start_nccl" then "nccl_result"
  else if t = "check_iperf3" then "check_iperf3_result"
  else if t = "iperf_server_start" then "iperf_server_start_result"
  else if t = "iperf_server_wait" then "iperf_server_wait_result"
  else "iperf_client_result"

/-- Embedding of `_worker_command_loop` over a finite list of incoming
events: the replies sent, and how the loop ends.  The loop body has no
exception handler, so a recv failure or a payload error while handling
a recognized command propagates and ends the loop; an unrecognized
type gets the explicit error reply and the loop continues; shutdown
acknowledges and returns 0. -/
def workerCommandLoop : List WireEvent → List WorkerReply × LoopExit
  | [] => ([], LoopExit.blocked)
  | WireEvent.transportFail e :: _ => ([], LoopExit.raised e)
  | WireEvent.message t pOk :: rest =>
      if t = "shutdown" then ([WorkerReply.typed "shutdown_ack"], LoopExit.normal 0)
      else if recognizedCommand t then
        if payloadRequired t && !pOk then ([], LoopExit.raised "payload field error")
        else
          let next := workerCommandLoop rest
          (WorkerReply.typed (replyTypeFor t) :: next.1, next.2)
      else
        let next := workerCommandLoop rest
        (WorkerReply.errorReply ("unknown command: " ++ t) :: next.1, next.2)

/-- An uncaught exception in one of the phases of `run_host_mode`
that have no handler of their own: the operator input gate (EOF on
stdin), a start_nccl broadcast send (broken pipe), or a mesh-phase
command exchange (the recv inside `_send_and_expect` raising).  Any
of these propagates out of run_host_mode; the per-worker teardown and
the listener close in the finally block swallow their own errors and
do not mask it. -/
inductive SessionCrash where
  | inputGate
  | broadcastSend
  | meshPhase
deriving DecidableEq

/-- Environment of one host session: whether the control listener
bind succeeded, whether some unguarded phase raises (none when the
gate, broadcast and mesh phases all run to completion), the host's
own collective result, and the registered workers with what each
one's channel yields in the collective phase. -/
structure HostEnv where
  bindOk : Bool
  crash : Option SessionCrash
  hostResult : NcclResult
  workers : List (WorkerConn × WireReply)
deriving DecidableEq

/-- Embedding of the exit paths of `run_host_mode`: a cluster size
below 2 or a bind failure returns 1 before any node-level work; an
uncaught exception in the input gate, the broadcast or the mesh phase
escapes the function (no return value is produced on any of those
paths, so one crash field covers them regardless of where they sit
relative to result collection); otherwise the session returns 0 when
every collective result (host plus one per worker) is ok, else 2. -/
def runHostMode (cs : Nat) (env : HostEnv) : Except SessionCrash Int :=
  if cs < 2 then Except.ok 1
  else if !env.bindOk then Except.ok 1
  else
    match env.crash with
    | some c => Except.error c
    | none =>
        let allResults := env.hostResult :: collectWorkerResults cs env.workers
        if allResults.all (fun r => r.ok) then Except.ok 0 else Except.ok 2

/-- The process exit status of the host session: run_host_mode's
return value, or 1 when an exception propagates out of it (the
interpreter exits 1 on an unhandled exception). -/
def sessionExitStatus (cs : Nat) (env : HostEnv) : Int :=
  match runHostMode cs env with
  | Except.ok code => code
  | Except.error _ => 1

/-- A collective result row with ok = true, for concrete sessions in
which every participant passed. -/
def okRow (r : Nat) : NcclResult :=
  { ok := true, rank := r, world_size := 2, hostname := "node", sum := some 1,
    expected_sum := 1, elapsed_seconds := 0, error := "" }

/-- A two-node session in which every collective result is ok but the
mesh phase raises an uncaught transport error. -/
def claim6CrashEnv : HostEnv :=
  { bindOk := true, crash := some SessionCrash.meshPhase,
    hostResult := okRow 0,
    workers := [({ rank := 1, hostname := "w1" },
        WireReply.msg "nccl_result" (okRow 1))] }

/-- Outcome of spawning one iperf3 server subprocess: a process handle
or a raised error. -/
inductive SpawnOutcome where
  | started (handle : Nat)
  | failed (e : String)
deriving DecidableEq

/-- The listener manager's state: the tracked servers, one (port,
process handle) entry per dict key, in insertion order. -/
structure IperfServers where
  servers : List (Nat × Nat)
deriving DecidableEq

/-- Dict membership test `port in self._servers`. -/
def lookupServer (m : IperfServers) (port : Nat) : Option (Nat × Nat) :=
  m.servers.find? (fun pr => pr.1 = port)

/-- Embedding of `IperfServerManager.start`: an already-tracked port
fails without touching the state; a spawn failure fails without
touching the state; otherwise the new entry is inserted. -/
def startServer (m : IperfServers) (port : Nat) (spawn : SpawnOutcome) :
    (Bool × String) × IperfServers :=
  if (lookupServer m port).isSome then
    ((false, "iperf3 server already exists on port"), m)
  else
    match spawn with
    | SpawnOutcome.failed e => ((false, e), m)
    | SpawnOutcome.started h =>
        ((true, ""), { servers := m.servers ++ [(port, h)] })

/-- Embedding of `IperfServerManager.wait`'s state effect: pop the
port's entry (an untracked port fails and leaves the state alone). -/
def waitServer (m : IperfServers) (port : Nat) : Option Nat × IperfServers :=
  match lookupServer m port with
  | none => (none, m)
  | some pr => (some pr.2, { servers := m.servers.filter (fun q => ¬ q.1 = port) })

/-- The dict invariant: tracked ports are pairwise distinct. -/
def portsNodup (m : IperfServers) : Prop := (m.servers.map Prod.fst).Nodup

/-- The socket state seen by `JsonChannel.recv`: the configured
timeout and the stream of buffered incoming lines. -/
structure SockState where
  timeoutCfg : Option ℚ
  pending : List String
deriving DecidableEq

/-- What the underlying blocking read does when no buffered line is
available: the timeout elapses, or the peer closes (readline returns
the empty string). -/
inductive NetOutcome where
  | timedOut
  | closed
deriving DecidableEq

/-- Outcome of one recv call: a raw line handed to the JSON parser, a
timeout error, or a peer-closed error. -/
inductive RecvOutcome where
  | msgLine (l : String)
  | timeoutError
  | peerClosedError
deriving DecidableEq

/-- Embedding of `JsonChannel.recv`: save the previous timeout, set
the caller's timeout, read one line, and restore the previous timeout
in the finally block — on the return path, the timeout path and the
peer-closed path alike (the EOF check and the JSON parse run after the
restore). -/
def channelRecv (st : SockState) (t : Option ℚ) (net : NetOutcome) :
    RecvOutcome × SockState :=
  let previous := st.timeoutCfg
  let during : SockState := { timeoutCfg := t, pending := st.pending }
  match during.pending with
  | [] =>
      match net with
      | NetOutcome.timedOut =>
          (RecvOutcome.timeoutError, { during with timeoutCfg := previous })
      | NetOutcome.closed =>
          (RecvOutcome.peerClosedError, { during with timeoutCfg := previous })
  | l :: rest =>
      let restored : SockState := { timeoutCfg := previous, pending := rest }
      if l = "" then (RecvOutcome.peerClosedError, restored)
      else (RecvOutcome.msgLine l, restored)

/-- The sum of the ranks 0..ws-1 (one scalar contributed per
participant) equals the closed-form expected value. -/
lemma sum_ranks_eq_expectedSum (ws : Nat) :
    (∑ i ∈ Finset.range ws, (i : ℚ)) = expectedSum ws := by
  rw [expectedSum, eq_div_iff (by norm_num : (2 : ℚ) ≠ 0), ← Nat.cast_sum]
  norm_cast
  exact Finset.sum_range_id_mul_two ws

/-- Claim C1: for every world_size >= 1, when the collective test
completes its join, all-reduce and barrier without failure (so the
reduced scalar is the sum of all ranks), the recorded sum equals
worldSize*(worldSize-1)/2 within 1e-4 and the result has ok = true;
for world_size = 1 the expected sum is 0. -/
theorem collective_sum_matches_closed_form (env : NcclEnv) (rank ws : Nat)
    (hws : 1 ≤ ws)
    (himp : env.torchImportOk = true) (hcuda : env.cudaAvailable = true)
    (hgpu : 1 ≤ env.gpuCount)
    (hcomm : env.commOutcome = CommOutcome.done (∑ i ∈ Finset.range ws, (i : ℚ))) :
    (runNcclDistributed env rank ws).sum = some (expectedSum ws) ∧
    |expectedSum ws - expectedSum ws| < 1 / 10000 ∧
    (runNcclDistributed env rank ws).ok = true ∧
    (ws = 1 → (runNcclDistributed env rank ws).expected_sum = 0) := by
  have hg : ¬ env.gpuCount < 1 := by omega
  have hsum := sum_ranks_eq_expectedSum ws
  refine ⟨?_, ?_, ?_, ?_⟩
  · norm_num [runNcclDistributed, himp, hcuda, hg, hcomm, hsum]
  · simp
  · norm_num [runNcclDistributed, himp, hcuda, hg, hcomm, hsum]
  · intro h1
    subst h1
    norm_num [runNcclDistributed, himp, hcuda, hg, hcomm, hsum, expectedSum]

/-- Witness for claim C1 at world size 3 with a correct all-reduce. -/
theorem collective_sum_matches_closed_form_witness :
    (runNcclDistributed claim1Env 0 3).sum = some (expectedSum 3) ∧
    |expectedSum 3 - expectedSum 3| < 1 / 10000 ∧
    (runNcclDistributed claim1Env 0 3).ok = true ∧
    (3 = 1 → (runNcclDistributed claim1Env 0 3).expected_sum = 0) :=
  collective_sum_matches_closed_form claim1Env 0 3 (by norm_num) (by rfl) (by rfl)
    (by norm_num [claim1Env])
    (by norm_num [claim1Env, Finset.sum_range_succ])

/-- Claim C9: on every execution path the collective test runner
returns a full result record (the embedding is a total function whose
rank, world size, hostname, expected-sum and elapsed fields are set on
every path), and whenever ok = true the sum is a number within 1e-4 of
the expected sum and the error string is empty. -/
theorem nccl_runner_total_fields (env : NcclEnv) (rank ws : Nat) :
    (runNcclDistributed env rank ws).rank = rank ∧
    (runNcclDistributed env rank ws).world_size = ws ∧
    (runNcclDistributed env rank ws).hostname = env.hostname ∧
    (runNcclDistributed env rank ws).expected_sum = expectedSum ws ∧
    (runNcclDistributed env rank ws).elapsed_seconds = env.elapsed ∧
    ((runNcclDistributed env rank ws).ok = true →
      (runNcclDistributed env rank ws).error = "" ∧
      ∃ s, (runNcclDistributed env rank ws).sum = some s ∧
        |s - (runNcclDistributed env rank ws).expected_sum| < 1 / 10000) := by
  unfold runNcclDistributed
  rcases env with ⟨hn, ti, te, ca, gc, co, el⟩
  cases ti <;> cases ca <;> simp <;>
    (try (rcases co with e | reduced)) <;>
    split <;>
    simp_all <;>
    (try split) <;>
    simp_all

/-- Witness for claim C9 at a concrete healthy environment. -/
theorem nccl_runner_total_fields_witness :
    (runNcclDistributed claim1Env 0 3).rank = 0 ∧
    (runNcclDistributed claim1Env 0 3).world_size = 3 ∧
    (runNcclDistributed claim1Env 0 3).hostname = claim1Env.hostname ∧
    (runNcclDistributed claim1Env 0 3).expected_sum = expectedSum 3 ∧
    (runNcclDistributed claim1Env 0 3).elapsed_seconds = claim1Env.elapsed ∧
    ((runNcclDistributed claim1Env 0 3).ok = true →
      (runNcclDistributed claim1Env 0 3).error = "" ∧
      ∃ s, (runNcclDistributed claim1Env 0 3).sum = some s ∧
        |s - (runNcclDistributed claim1Env 0 3).expected_sum| < 1 / 10000) :=
  nccl_runner_total_fields claim1Env 0 3

/-- Claim C2: the host produces exactly one result entry per
registered worker, positionally matched to that worker's own
connection; recv failures and wrong-typed replies become synthetic
failed results carrying the worker's stored rank and hostname, ok =
false, no sum, the closed-form expected sum and a descriptive error;
with the host's own row the table has exactly cluster_size rows. -/
theorem host_aggregation_one_row_per_worker (cs : Nat) (hcs : 1 ≤ cs)
    (hostResult : NcclResult) (l : List (WorkerConn × WireReply))
    (hl : l.length = cs - 1) :
    (collectWorkerResults cs l).length = l.length ∧
    (∀ i : Nat, (collectWorkerResults cs l)[i]? =
      (l[i]?).map (fun p => collectWorkerResult cs p.1 p.2)) ∧
    (∀ w e,
      (collectWorkerResult cs w (WireReply.recvFail e)).ok = false ∧
      (collectWorkerResult cs w (WireReply.recvFail e)).rank = w.rank ∧
      (collectWorkerResult cs w (WireReply.recvFail e)).hostname = w.hostname ∧
      (collectWorkerResult cs w (WireReply.recvFail e)).sum = none ∧
      (collectWorkerResult cs w (WireReply.recvFail e)).expected_sum = expectedSum cs ∧
      (collectWorkerResult cs w (WireReply.recvFail e)).error = "recv failed: " ++ e) ∧
    (∀ w t payload, t ≠ "nccl_result" →
      (collectWorkerResult cs w (WireReply.msg t payload)).ok = false ∧
      (collectWorkerResult cs w (WireReply.msg t payload)).rank = w.rank ∧
      (collectWorkerResult cs w (WireReply.msg t payload)).hostname = w.hostname ∧
      (collectWorkerResult cs w (WireReply.msg t payload)).sum = none ∧
      (collectWorkerResult cs w (WireReply.msg t payload)).expected_sum = expectedSum cs ∧
      (collectWorkerResult cs w (WireReply.msg t payload)).error = "unexpected response") ∧
    (hostResult :: collectWorkerResults cs l).length = cs := by
  refine ⟨?_, ?_, ?_, ?_, ?_⟩
  · simp [collectWorkerResults]
  · intro i
    simp [collectWorkerResults]
  · intro w e
    simp [collectWorkerResult, syntheticResult]
  · intro w t payload ht
    simp [collectWorkerResult, syntheticResult, ht]
  · simp only [List.length_cons, collectWorkerResults, List.length_map, hl]
    omega

/-- Witness for claim C2 at a concrete three-node cluster. -/
theorem host_aggregation_one_row_per_worker_witness :
    (collectWorkerResults 3 claim2Workers).length = claim2Workers.length ∧
    (∀ i : Nat, (collectWorkerResults 3 claim2Workers)[i]? =
      (claim2Workers[i]?).map (fun p => collectWorkerResult 3 p.1 p.2)) ∧
    (∀ w e,
      (collectWorkerResult 3 w (WireReply.recvFail e)).ok = false ∧
      (collectWorkerResult 3 w (WireReply.recvFail e)).rank = w.rank ∧
      (collectWorkerResult 3 w (WireReply.recvFail e)).hostname = w.hostname ∧
      (collectWorkerResult 3 w (WireReply.recvFail e)).sum = none ∧
      (collectWorkerResult 3 w (WireReply.recvFail e)).expected_sum = expectedSum 3 ∧
      (collectWorkerResult 3 w (WireReply.recvFail e)).error = "recv failed: " ++ e) ∧
    (∀ w t payload, t ≠ "nccl_result" →
      (collectWorkerResult 3 w (WireReply.msg t payload)).ok = false ∧
      (collectWorkerResult 3 w (WireReply.msg t payload)).rank = w.rank ∧
      (collectWorkerResult 3 w (WireReply.msg t payload)).hostname = w.hostname ∧
      (collectWorkerResult 3 w (WireReply.msg t payload)).sum = none ∧
      (collectWorkerResult 3 w (WireReply.msg t payload)).expected_sum = expectedSum 3 ∧
      (collectWorkerResult 3 w (WireReply.msg t payload)).error = "unexpected response") ∧
    (runNcclDistributed claim1Env 0 3 :: collectWorkerResults 3 claim2Workers).length = 3 :=
  host_aggregation_one_row_per_worker 3 (by norm_num)
    (runNcclDistributed claim1Env 0 3) claim2Workers (by rfl)

/-- A registration step preserves canonical rank assignment. -/
lemma registerStep_ranksCanonical (workers : List WorkerConn) (e : RegEvent)
    (hc : ranksCanonical workers) : ranksCanonical (registerStep workers e) := by
  rcases e with _ | ⟨t, h, pOk, sOk⟩
  · exact hc
  · simp only [registerStep]
    split
    · split
      · intro i hi
        rw [List.get_eq_getElem]
        rcases Nat.lt_or_ge i workers.length with hlt | hge
        · rw [List.getElem_append_left hlt]
          have hgi := hc i hlt
          rw [List.get_eq_getElem] at hgi
          exact hgi
        · have hlen := hi
          simp only [List.length_append, List.length_cons, List.length_nil] at hlen
          have hie : i = workers.length := by omega
          subst hie
          simp
      · exact hc
    · exact hc

/-- The registration loop preserves canonical rank assignment. -/
lemma registerLoop_ranksCanonical (cs : Nat) (events : List RegEvent)
    (workers : List WorkerConn) (hc : ranksCanonical workers) :
    ranksCanonical (registerLoop cs events workers) := by
  induction events generalizing workers with
  | nil => exact hc
  | cons e rest ih =>
      unfold registerLoop
      split
      · exact ih _ (registerStep_ranksCanonical workers e hc)
      · exact hc

/-- The registration loop never grows the worker list past
cluster_size - 1. -/
lemma registerLoop_length_le (cs : Nat) (events : List RegEvent)
    (workers : List WorkerConn) (hw : workers.length ≤ cs - 1) :
    (registerLoop cs events workers).length ≤ cs - 1 := by
  induction events generalizing workers with
  | nil => exact hw
  | cons e rest ih =>
      unfold registerLoop
      split
      · refine ih _ ?_
        rcases e with _ | ⟨t, h, pOk, sOk⟩
        · exact hw
        · simp only [registerStep]
          split
          · split
            · simp only [List.length_append, List.length_cons, List.length_nil]
              omega
            · exact hw
          · exact hw
      · exact hw

/-- Counterexample to claim C3: a connection whose first message is a
valid register (with a convertible payload) but whose `registered`
reply fails to send still consumes a rank — the worker is appended
before the reply is sent, and the exception handler only closes the
channel, leaving the entry in place.  Claim C3 asserts such an errored
registration exchange consumes no rank, i.e. that the list would stay
empty here. -/
theorem register_reply_failure_consumes_rank :
    (registerLoop 3 [RegEvent.firstMsg "register" "w1" true false] []).length = 1 ∧
    registerLoop 3 [RegEvent.firstMsg "register" "w1" true false] [] =
      [{ rank := 1, hostname := "w1" }] ∧
    ¬ (registerLoop 3 [RegEvent.firstMsg "register" "w1" true false] []).length = 0 := by
  refine ⟨by rfl, by rfl, by decide⟩

/-- Claim C3 (amended): every successfully registered worker (one
whose register first message arrived and whose payload conversion
succeeded, so the append ran) is assigned rank = 1 + (count of prior
successful registrations), so ranks run 1..k strictly increasing in
registration order and are never reused; a recv failure, a
non-register first message, or a register whose payload conversion
raises before the append consumes no rank; a failure while sending
the `registered` reply, however, occurs after the append and still
consumes the rank; registration stops at cluster_size - 1 workers,
leaving rank 0 to the host. -/
theorem rank_assignment_strictly_increasing (cs : Nat) (events : List RegEvent) :
    (∀ i (h : i < (registerLoop cs events []).length),
        ((registerLoop cs events []).get ⟨i, h⟩).rank = i + 1) ∧
    (registerLoop cs events []).length ≤ cs - 1 ∧
    (∀ workers, registerStep workers RegEvent.recvFail = workers) ∧
    (∀ workers t h pOk sOk, t ≠ "register" →
        registerStep workers (RegEvent.firstMsg t h pOk sOk) = workers) ∧
    (∀ workers h sOk,
        registerStep workers (RegEvent.firstMsg "register" h false sOk) = workers) ∧
    (∀ workers h sOk,
        registerStep workers (RegEvent.firstMsg "register" h true sOk) =
          workers ++ [{ rank := workers.length + 1, hostname := h }]) := by
  refine ⟨?_, ?_, ?_, ?_, ?_, ?_⟩
  · exact registerLoop_ranksCanonical cs events [] (fun i h => by simp at h)
  · exact registerLoop_length_le cs events [] (by simp)
  · intro workers
    rfl
  · intro workers t h pOk sOk ht
    simp [registerStep, ht]
  · intro workers h sOk
    simp [registerStep]
  · intro workers h sOk
    simp [registerStep]

/-- Witness for (amended) claim C3: connection events covering a recv
failure, a stray non-register message, a register with a broken
payload and two valid registers yield exactly the workers with ranks
1 and 2 in order, and the broken-payload register consumes nothing. -/
theorem rank_assignment_strictly_increasing_witness :
    ((registerLoop 3 [RegEvent.recvFail,
        RegEvent.firstMsg "register" "a" true true,
        RegEvent.firstMsg "hello" "b" true true,
        RegEvent.firstMsg "register" "x" false true,
        RegEvent.firstMsg "register" "c" true false]
        []).get ⟨0, by decide⟩).rank = 0 + 1 ∧
    ((registerLoop 3 [RegEvent.recvFail,
        RegEvent.firstMsg "register" "a" true true,
        RegEvent.firstMsg "hello" "b" true true,
        RegEvent.firstMsg "register" "x" false true,
        RegEvent.firstMsg "register" "c" true false]
        []).get ⟨1, by decide⟩).rank = 1 + 1 ∧
    registerStep [] (RegEvent.firstMsg "hello" "b" true true) = [] ∧
    registerStep [] (RegEvent.firstMsg "register" "x" false true) = [] :=
  ⟨(rank_assignment_strictly_increasing 3 _).1 0 (by decide),
   (rank_assignment_strictly_increasing 3 _).1 1 (by decide),
   (rank_assignment_strictly_increasing 3 []).2.2.2.1 [] "hello" "b" true true
     (by decide),
   (rank_assignment_strictly_increasing 3 []).2.2.2.2.1 [] "x" true⟩

/-- Counterexample to claim C4: a directed probe is marked ok = true
although no numeric bits-per-second value is recoverable from the
sink's machine-readable report — the code parses the client's output
and never parses the sink's; claim C4 requires ok = true only if the
figure was recovered from the sink's report. -/
theorem direction_ok_without_sink_report :
    (runIperfDirection claim4Env).ok = true ∧
    extractIperfBps claim4Env.serverWaitOut = none ∧
    (runIperfDirection claim4Env).bps = extractIperfBps claim4Env.clientOut := by
  refine ⟨by rfl, by rfl, by rfl⟩

/-- Claim C4 (amended): a directed probe passes only if the client ran
successfully (exit code 0) and a numeric bits-per-second value was
recovered from the CLIENT's machine-readable output (the sink's own
report is collected but never parsed); extraction takes the larger of
the sent and received aggregate figures and falls back to the maximum
over per-stream figures when aggregates are absent; a pair passes only
if both of its directions pass. -/
theorem direction_pass_requires_client_throughput (env : DirectionEnv) :
    ((runIperfDirection env).ok = true →
      env.clientExitCode = 0 ∧
      ∃ b, extractIperfBps env.clientOut = some b ∧
        (runIperfDirection env).bps = some b) ∧
    (∀ e bs br, e.sum_sent = some { bits_per_second := some bs } →
      e.sum_received = some { bits_per_second := some br } →
      extractIperfBps (IperfOutput.parsed e) = some (max br bs)) ∧
    (∀ e : IperfEnd,
      sideCandidates e.sum_received ++ sideCandidates e.sum_sent = [] →
      extractIperfBps (IperfOutput.parsed e) = maxCandidates (streamCandidates e)) ∧
    (∀ a b : ProbeReply, (meshRow a b).status = "PASS" →
      a.ok = true ∧ b.ok = true) := by
  refine ⟨?_, ?_, ?_, ?_⟩
  · intro hok
    unfold runIperfDirection at hok ⊢
    by_cases hs : env.serverStartOk = true
    · simp only [hs, Bool.not_true, Bool.false_eq_true, if_false] at hok ⊢
      by_cases hcode : env.clientExitCode = 0
      · rcases hb : extractIperfBps env.clientOut with _ | b
        · simp [runIperfClient, hcode, hb] at hok
        · by_cases hw : env.serverWaitOk = true
          · exact ⟨hcode, b, rfl, by simp [runIperfClient, hcode, hw, hb]⟩
          · simp [runIperfClient, hcode, hb, hw] at hok
      · simp [runIperfClient, hcode] at hok
    · simp [hs] at hok
  · intro e bs br hsent hrecv
    simp [extractIperfBps, hsent, hrecv, sideCandidates, maxCandidates]
  · intro e hempty
    simp [extractIperfBps, hempty, maxCandidates]
  · intro a b hstatus
    by_cases hab : a.ok = true ∧ b.ok = true
    · exact hab
    · exfalso
      unfold meshRow at hstatus
      simp only [hab, if_false] at hstatus
      exact absurd hstatus (by decide)

/-- Witness for (amended) claim C4: the concrete healthy probe
environment from the counterexample discharges the ok hypothesis. -/
theorem direction_pass_requires_client_throughput_witness :
    claim4Env.clientExitCode = 0 ∧
    ∃ b, extractIperfBps claim4Env.clientOut = some b ∧
      (runIperfDirection claim4Env).bps = some b :=
  (direction_pass_requires_client_throughput claim4Env).1 (by rfl)

/-- Counterexample to claim C8: both directed probes succeed (one with
throughput 0, one with 2 Gbps), the row status is PASS, yet the
recorded Avg Gbps is 2, not the arithmetic mean 1 of the two
directions' figures — the zero figure is truthy-filtered out before
averaging. -/
theorem zero_bps_direction_skews_avg :
    (runIperfDirection claim8EnvZero).ok = true ∧
    (runIperfDirection claim8EnvZero).bps = some 0 ∧
    (runIperfDirection claim8EnvTwo).ok = true ∧
    (runIperfDirection claim8EnvTwo).bps = some 2000000000 ∧
    (meshRow (runIperfDirection claim8EnvZero) (runIperfDirection claim8EnvTwo)).status
      = "PASS" ∧
    (meshRow (runIperfDirection claim8EnvZero) (runIperfDirection claim8EnvTwo)).avgGbps
      = some 2 ∧
    (0 / 1000000000 + 2000000000 / 1000000000) / 2 = (1 : ℚ) ∧
    ¬ (meshRow (runIperfDirection claim8EnvZero) (runIperfDirection claim8EnvTwo)).avgGbps
      = some ((0 / 1000000000 + 2000000000 / 1000000000) / 2) := by
  have hz : runIperfDirection claim8EnvZero =
      { ok := true, bps := some 0, error := "" } := by rfl
  have ht : runIperfDirection claim8EnvTwo =
      { ok := true, bps := some 2000000000, error := "" } := by rfl
  have havg : (meshRow (runIperfDirection claim8EnvZero)
      (runIperfDirection claim8EnvTwo)).avgGbps = some 2 := by
    rw [hz, ht]
    norm_num [meshRow, directionGbps]
  refine ⟨by rw [hz], by rw [hz], by rw [ht], by rw [ht],
    by rw [hz, ht]; simp [meshRow], havg, by norm_num, ?_⟩
  rw [havg]
  norm_num

/-- A succeeding probe with a nonzero reported figure contributes its
gigabit value to the row. -/
lemma directionGbps_pos (d : ProbeReply) (x : ℚ) (hok : d.ok = true)
    (hb : d.bps = some x) (hx : x ≠ 0) :
    directionGbps d = some (x / 1000000000) := by
  simp [directionGbps, hb, hok, hx]

/-- Claim C8 (amended): when both directed probes succeed and both
report a nonzero throughput, the Avg Gbps value is the arithmetic
mean of the two directions' gigabit figures and the status is PASS
(the status is PASS whenever both probes succeed, but a succeeding
direction with zero throughput is shown as absent and excluded from
the average); when either direction fails the status is FAIL, the
passing direction's (nonzero) throughput is still reported, and the
detail text carries an error entry for each failing direction. -/
theorem mesh_row_avg_and_status (a b : ProbeReply) :
    (∀ x y, a.ok = true → b.ok = true → a.bps = some x → b.bps = some y →
      x ≠ 0 → y ≠ 0 →
      (meshRow a b).status = "PASS" ∧
      (meshRow a b).avgGbps = some ((x / 1000000000 + y / 1000000000) / 2)) ∧
    (a.ok = true → b.ok = true → (meshRow a b).status = "PASS") ∧
    (a.ok = false ∨ b.ok = false → (meshRow a b).status = "FAIL") ∧
    (∀ x, a.ok = true → b.ok = false → a.bps = some x → x ≠ 0 →
      (meshRow a b).aGbps = some (x / 1000000000) ∧
      (meshRow a b).detail = ("B->A: " ++ b.error).trim) ∧
    (∀ y, a.ok = false → b.ok = true → b.bps = some y → y ≠ 0 →
      (meshRow a b).bGbps = some (y / 1000000000) ∧
      (meshRow a b).detail = ("A->B: " ++ a.error ++ " ").trim) ∧
    (a.ok = false → b.ok = false →
      (meshRow a b).detail =
        ("A->B: " ++ a.error ++ " " ++ ("B->A: " ++ b.error)).trim) := by
  refine ⟨?_, ?_, ?_, ?_, ?_, ?_⟩
  · intro x y ha hb hx hy hx0 hy0
    have haG := directionGbps_pos a x ha hx hx0
    have hbG := directionGbps_pos b y hb hy hy0
    constructor
    · simp [meshRow, ha, hb]
    · simp only [meshRow, haG, hbG, Option.toList_some, List.cons_append,
        List.nil_append, List.singleton_append, List.sum_cons, List.sum_nil,
        List.length_cons, List.length_nil]
      rw [if_neg (by simp)]
      norm_num
  · intro ha hb
    simp [meshRow, ha, hb]
  · intro hfail
    rcases hfail with ha | hb
    · simp [meshRow, ha]
    · simp [meshRow, hb]
  · intro x ha hb hx hx0
    have haG := directionGbps_pos a x ha hx hx0
    constructor
    · simp only [meshRow, haG]
    · simp [meshRow, ha, hb, String.empty_append]
  · intro y ha hb hy hy0
    have hbG := directionGbps_pos b y hb hy hy0
    constructor
    · simp only [meshRow, hbG]
    · simp [meshRow, ha, hb, String.append_empty]
  · intro ha hb
    simp [meshRow, ha, hb, String.append_assoc]

/-- Witness for (amended) claim C8: one direction passes at 1 Gbps,
the other fails. -/
theorem mesh_row_avg_and_status_witness :
    (meshRow { ok := true, bps := some 1000000000, error := "" }
        { ok := false, bps := none, error := "client failed: boom" }).aGbps
      = some (1000000000 / 1000000000) ∧
    (meshRow { ok := true, bps := some 1000000000, error := "" }
        { ok := false, bps := none, error := "client failed: boom" }).detail
      = ("B->A: " ++ "client failed: boom").trim :=
  (mesh_row_avg_and_status
      { ok := true, bps := some 1000000000, error := "" }
      { ok := false, bps := none, error := "client failed: boom" }).2.2.2.1
    1000000000 (by rfl) (by rfl) (by rfl) (by norm_num)

/-- Counterexample to claim C5: a recognized command with a malformed
payload (an iperf_server_start with no usable port) makes the loop
raise and exit — the following command is never answered — whereas the
claim says the loop continues on any error other than transport
failure or shutdown. -/
theorem malformed_payload_exits_loop :
    workerCommandLoop
        [WireEvent.message "iperf_server_start" false,
         WireEvent.message "bogus" true] =
      ([], LoopExit.raised "payload field error") ∧
    ¬ (workerCommandLoop
        [WireEvent.message "iperf_server_start" false,
         WireEvent.message "bogus" true]).2 = LoopExit.blocked := by
  refine ⟨by rfl, by decide⟩

/-- Claim C5 (amended): a command with an unrecognized type is
answered with an explicit error reply (never dropped) and the loop
continues with the remaining events; the loop returns normally only
on shutdown and raises on transport failure — and also on an error
while handling a recognized command, such as a malformed payload of a
payload-carrying command type. -/
theorem unknown_command_gets_error_reply (t : String) (pOk : Bool)
    (rest : List WireEvent) (hunk : recognizedCommand t = false) :
    (workerCommandLoop (WireEvent.message t pOk :: rest)).1 =
      WorkerReply.errorReply ("unknown command: " ++ t) ::
        (workerCommandLoop rest).1 ∧
    (workerCommandLoop (WireEvent.message t pOk :: rest)).2 =
      (workerCommandLoop rest).2 ∧
    (∀ e rest2, workerCommandLoop (WireEvent.transportFail e :: rest2) =
      ([], LoopExit.raised e)) ∧
    (∀ pOk2 rest2,
      workerCommandLoop (WireEvent.message "shutdown" pOk2 :: rest2) =
        ([WorkerReply.typed "shutdown_ack"], LoopExit.normal 0)) ∧
    (∀ t2 rest2, recognizedCommand t2 = true → payloadRequired t2 = true →
      workerCommandLoop (WireEvent.message t2 false :: rest2) =
        ([], LoopExit.raised "payload field error")) := by
  have hts : ¬ t = "shutdown" := by
    intro he
    rw [he] at hunk
    simp [recognizedCommand] at hunk
  refine ⟨?_, ?_, ?_, ?_, ?_⟩
  · simp [workerCommandLoop, hts, hunk]
  · simp [workerCommandLoop, hts, hunk]
  · intro e rest2
    rfl
  · intro pOk2 rest2
    simp [workerCommandLoop]
  · intro t2 rest2 hrec hpay
    have ht2 : ¬ t2 = "shutdown" := by
      intro he
      rw [he] at hpay
      simp [payloadRequired] at hpay
    simp [workerCommandLoop, ht2, hrec, hpay]

/-- Witness for (amended) claim C5: a stray ping command is answered
with an error reply and the loop goes on to acknowledge shutdown. -/
theorem unknown_command_gets_error_reply_witness :
    (workerCommandLoop
        [WireEvent.message "ping" true, WireEvent.message "shutdown" true]).1 =
      WorkerReply.errorReply ("unknown command: " ++ "ping") ::
        (workerCommandLoop [WireEvent.message "shutdown" true]).1 ∧
    (workerCommandLoop
        [WireEvent.message "ping" true, WireEvent.message "shutdown" true]).2 =
      (workerCommandLoop [WireEvent.message "shutdown" true]).2 :=
  ⟨(unknown_command_gets_error_reply "ping" true
      [WireEvent.message "shutdown" true] (by decide)).1,
   (unknown_command_gets_error_reply "ping" true
      [WireEvent.message "shutdown" true] (by decide)).2.1⟩

/-- Counterexample to claim C6: a two-node session in which every
collective result (the host's own and the one worker's) has ok = true
still ends with process exit status 1 when the mesh phase raises an
uncaught transport error — the recv inside the mesh-phase command
exchange has no handler, so the exception escapes run_host_mode and
the interpreter exits 1, falsifying the claimed biconditional
(exit status 0 iff all collective results ok). -/
theorem mesh_crash_exits_nonzero_despite_all_ok :
    (claim6CrashEnv.hostResult ::
        collectWorkerResults 2 claim6CrashEnv.workers).all (fun r => r.ok) = true ∧
    sessionExitStatus 2 claim6CrashEnv = 1 ∧
    ¬ sessionExitStatus 2 claim6CrashEnv = 0 := by
  refine ⟨by rfl, by rfl, by decide⟩

/-- Claim C6 (amended): the host session's exit status is 0 only if
cluster_size is at least 2, the listener bound, the unguarded phases
(operator gate, start_nccl broadcast, mesh phase) raised no uncaught
error, and every participant's collective result is ok; for a session
that completes those phases the status is 0 iff all results are ok,
and 2 when at least one failed; an uncaught error in an unguarded
phase ends the process with status 1 even when all collective results
are ok; the status is 1, decided before any node-level work, when
cluster_size < 2 or the listener bind fails. -/
theorem host_exit_status_convention (cs : Nat) (env : HostEnv) :
    (sessionExitStatus cs env = 0 →
      2 ≤ cs ∧ env.bindOk = true ∧ env.crash = none ∧
      (env.hostResult :: collectWorkerResults cs env.workers).all
        (fun r => r.ok) = true) ∧
    (2 ≤ cs → env.bindOk = true → env.crash = none →
      (sessionExitStatus cs env = 0 ↔
        (env.hostResult :: collectWorkerResults cs env.workers).all
          (fun r => r.ok) = true)) ∧
    (2 ≤ cs → env.bindOk = true → env.crash = none →
      ¬ (env.hostResult :: collectWorkerResults cs env.workers).all
          (fun r => r.ok) = true →
      sessionExitStatus cs env = 2) ∧
    (2 ≤ cs → env.bindOk = true → ∀ c, env.crash = some c →
      sessionExitStatus cs env = 1) ∧
    (cs < 2 → sessionExitStatus cs env = 1) ∧
    (env.bindOk = false → sessionExitStatus cs env = 1) ∧
    (∀ env2 : HostEnv, cs < 2 →
      sessionExitStatus cs env = sessionExitStatus cs env2) ∧
    (∀ env2 : HostEnv, env.bindOk = false → env2.bindOk = false →
      sessionExitStatus cs env = sessionExitStatus cs env2) := by
  refine ⟨?_, ?_, ?_, ?_, ?_, ?_, ?_, ?_⟩
  · intro h0
    by_cases hlt : cs < 2
    · simp [sessionExitStatus, runHostMode, hlt] at h0
    · cases hbv : env.bindOk with
      | false => simp [sessionExitStatus, runHostMode, hlt, hbv] at h0
      | true =>
          rcases hcrash : env.crash with _ | c
          · by_cases hall : (env.hostResult ::
                collectWorkerResults cs env.workers).all (fun r => r.ok) = true
            · exact ⟨by omega, rfl, rfl, hall⟩
            · simp [sessionExitStatus, runHostMode, hlt, hbv, hcrash, hall] at h0
          · simp [sessionExitStatus, runHostMode, hlt, hbv, hcrash] at h0
  · intro hcs hbind hcrash
    have hlt : ¬ cs < 2 := by omega
    constructor
    · intro h0
      by_contra hall
      simp [sessionExitStatus, runHostMode, hlt, hbind, hcrash, hall] at h0
    · intro hall
      simp [sessionExitStatus, runHostMode, hlt, hbind, hcrash, hall]
  · intro hcs hbind hcrash hall
    have hlt : ¬ cs < 2 := by omega
    simp [sessionExitStatus, runHostMode, hlt, hbind, hcrash, hall]
  · intro hcs hbind c hcrash
    have hlt : ¬ cs < 2 := by omega
    simp [sessionExitStatus, runHostMode, hlt, hbind, hcrash]
  · intro hlt
    simp [sessionExitStatus, runHostMode, hlt]
  · intro hbind
    by_cases hlt : cs < 2
    · simp [sessionExitStatus, runHostMode, hlt]
    · simp [sessionExitStatus, runHostMode, hlt, hbind]
  · intro env2 hlt
    simp [sessionExitStatus, runHostMode, hlt]
  · intro env2 hbind hbind2
    by_cases hlt : cs < 2
    · simp [sessionExitStatus, runHostMode, hlt]
    · simp [sessionExitStatus, runHostMode, hlt, hbind, hbind2]

/-- Witness for (amended) claim C6: a completed three-node session
(no crash) with one worker timed out exits with status 2. -/
theorem host_exit_status_convention_witness :
    sessionExitStatus 3
        { bindOk := true, crash := none,
          hostResult := runNcclDistributed claim1Env 0 3,
          workers := claim2Workers } = 2 :=
  (host_exit_status_convention 3
      { bindOk := true, crash := none,
        hostResult := runNcclDistributed claim1Env 0 3,
        workers := claim2Workers }).2.2.1
    (by norm_num) (by rfl) (by rfl)
    (by simp [claim2Workers, collectWorkerResults, collectWorkerResult, syntheticResult])

/-- Starting on a fresh port appends exactly that entry. -/
lemma startServer_free (m : IperfServers) (port : Nat) (h : Nat)
    (hfree : lookupServer m port = none) :
    startServer m port (SpawnOutcome.started h) =
      ((true, ""), { servers := m.servers ++ [(port, h)] }) := by
  simp [startServer, hfree]

/-- startServer preserves the one-listener-per-port invariant. -/
lemma startServer_portsNodup (m : IperfServers) (port : Nat)
    (spawn : SpawnOutcome) (hnd : portsNodup m) :
    portsNodup (startServer m port spawn).2 := by
  unfold startServer
  rcases hocc : lookupServer m port with _ | pr
  · simp only [hocc, Option.isSome_none, Bool.false_eq_true, if_false]
    rcases spawn with h | e
    · have hnotin : ∀ q ∈ m.servers, ¬ q.1 = port := by
        intro q hq
        have := List.find?_eq_none.mp hocc q hq
        simpa using this
      simp only [portsNodup, List.map_append, List.map_cons, List.map_nil]
      rw [List.nodup_append]
      refine ⟨hnd, List.nodup_singleton port, ?_⟩
      intro p hp hps
      simp only [List.mem_singleton] at hps
      subst hps
      rcases List.mem_map.mp hp with ⟨q, hq, hqp⟩
      exact hnotin q hq hqp
    · exact hnd
  · simp only [hocc, Option.isSome_some, if_true]
    exact hnd

/-- waitServer preserves the one-listener-per-port invariant. -/
lemma waitServer_portsNodup (m : IperfServers) (port : Nat)
    (hnd : portsNodup m) : portsNodup (waitServer m port).2 := by
  unfold waitServer
  rcases hocc : lookupServer m port with _ | pr
  · exact hnd
  · simp only [portsNodup]
    have hsub : List.Sublist (m.servers.filter (fun q => ¬ q.1 = port)) m.servers :=
      List.filter_sublist m.servers
    exact (hsub.map Prod.fst).nodup hnd

/-- Claim C7: starting a listener on a port that already has a tracked
listener fails with an error and leaves the manager state — hence the
existing listener's entry — unchanged; start and wait both preserve
the at-most-one-listener-per-port invariant. -/
theorem listener_duplicate_port_fails (m : IperfServers) (port : Nat)
    (spawn : SpawnOutcome) (hocc : (lookupServer m port).isSome = true) :
    ((startServer m port spawn).1.1 = false ∧
     ¬ (startServer m port spawn).1.2 = "" ∧
     (startServer m port spawn).2 = m ∧
     lookupServer (startServer m port spawn).2 port = lookupServer m port) ∧
    (∀ m2 p2 s2, portsNodup m2 → portsNodup (startServer m2 p2 s2).2) ∧
    (∀ m2 p2, portsNodup m2 → portsNodup (waitServer m2 p2).2) := by
  refine ⟨?_, ?_, ?_⟩
  · refine ⟨?_, ?_, ?_, ?_⟩ <;> simp [startServer, hocc]
  · intro m2 p2 s2 hnd
    exact startServer_portsNodup m2 p2 s2 hnd
  · intro m2 p2 hnd
    exact waitServer_portsNodup m2 p2 hnd

/-- Witness for claim C7: port 5301 is occupied, a second start on it
fails and the tracked entry survives. -/
theorem listener_duplicate_port_fails_witness :
    ((startServer { servers := [(5301, 17)] } 5301
        (SpawnOutcome.started 18)).1.1 = false ∧
     ¬ (startServer { servers := [(5301, 17)] } 5301
        (SpawnOutcome.started 18)).1.2 = "" ∧
     (startServer { servers := [(5301, 17)] } 5301
        (SpawnOutcome.started 18)).2 = { servers := [(5301, 17)] } ∧
     lookupServer (startServer { servers := [(5301, 17)] } 5301
        (SpawnOutcome.started 18)).2 5301 =
       lookupServer { servers := [(5301, 17)] } 5301) ∧
    (∀ m2 p2 s2, portsNodup m2 → portsNodup (startServer m2 p2 s2).2) ∧
    (∀ m2 p2, portsNodup m2 → portsNodup (waitServer m2 p2).2) :=
  listener_duplicate_port_fails { servers := [(5301, 17)] } 5301
    (SpawnOutcome.started 18) (by decide)

/-- Claim C10: recv restores the previously configured socket timeout
on every exit path — message returned, timeout raised, or peer-closed
raised — so one recv call never changes the channel's timeout
configuration, whatever it consumes from the stream. -/
theorem recv_restores_timeout (st : SockState) (t : Option ℚ) (net : NetOutcome) :
    ((channelRecv st t net).2).timeoutCfg = st.timeoutCfg := by
  unfold channelRecv
  rcases hp : st.pending with _ | ⟨l, rest⟩
  · rcases net with _ | _ <;> simp [hp]
  · simp only [hp]
    by_cases hl : l = ""
    · simp [hl]
    · simp [hl]
